import Mathlib

/-!
Verification model of the exFetch repository (hugoalh-studio/exfetch-nodejs).

The repository ships two editions of the orchestrator:
* `dist/exfetch.js` at version 0.2.0 (retry + manual-redirect control +
  pagination; this is the edition the specification's section 4.4 state
  machine describes), and
* `src/main.ts` / `dist/exfetch.js` at versions 0.1.x (retry + pagination,
  no redirect control).

This file shallowly embeds the pure decision logic of both editions:
JavaScript numbers are modelled as rationals (all quantities the claims
touch are exact in IEEE doubles within the stated safe-integer bounds),
host primitives (`crypto.randomInt`, `Headers`, `URL`, the transport
`fetch`) are modelled at their documented interface boundary, and the
loops are given an explicit fuel argument that the theorems always
instantiate with enough budget for the scenario at hand.
-/

deriving instance DecidableEq for Except

namespace ExFetchModel

/-! ## JavaScript number and `crypto.randomInt` interface model -/

/-- Model of `Number.isSafeInteger` on an idealised (rational) JS number:
an integer whose magnitude is at most 2^53 - 1. -/
def qIsSafeInteger (q : ℚ) : Prop :=
  q.den = 1 ∧ q.num.natAbs ≤ 2 ^ 53 - 1

instance (q : ℚ) : Decidable (qIsSafeInteger q) := by
  unfold qIsSafeInteger; infer_instance

/-- Interface model of node:crypto `randomInt(min, max)` (an external
collaborator of the repository). Per the Node.js documented contract it
throws a `RangeError` unless both bounds are safe integers with
`max > min` and `max - min < 2 ** 48`; otherwise it returns a uniformly
distributed integer in `[min, max)`. The random draw is exposed through
the `seed` argument: every value of `seed` realises one possible draw,
and together the seeds realise exactly the integers of `[min, max)`.
`none` models the thrown `RangeError`. -/
def randomIntJS (lo hi : ℚ) (seed : ℕ) : Option ℤ :=
  if qIsSafeInteger lo ∧ qIsSafeInteger hi ∧ lo < hi ∧ hi - lo < (2 : ℚ) ^ 48 then
    some (lo.num + (seed : ℤ) % (hi.num - lo.num))
  else
    none

/-! ## Delay resolvers

`resolveIntervalTime` is the v0.1.x resolver (src/main.ts lines 271-280,
with the `increment` widening); `resolveDelayTime` is the v0.2.0 resolver
(dist/exfetch.js lines 102-107, no widening). -/

/-- Embedding of v0.1.x `resolveIntervalTime({attemptCurrent, attempts,
increment, maximum, minimum})`. Returns `none` where the JS code would
throw (inside `crypto.randomInt`). -/
def resolveIntervalTime (attemptCurrent attempts : ℚ) (increment : Bool)
    (maximum minimum : ℚ) (seed : ℕ) : Option ℚ :=
  if maximum = minimum then
    some maximum
  else if increment then
    let incrementMinimum : ℚ := minimum + ((maximum - minimum) * attemptCurrent / attempts)
    (randomIntJS incrementMinimum maximum seed).map (fun z => (z : ℚ))
  else
    (randomIntJS minimum maximum seed).map (fun z => (z : ℚ))

/-- The v0.2.0 internal delay range `{maximum, minimum}`
(`ExFetchDelayOptionsInternal`); `resolveDelayOptions` guarantees both
fields are non-negative safe integers with `minimum <= maximum`. -/
structure DelayPair where
  maximum : ℕ
  minimum : ℕ
deriving DecidableEq, Repr

/-- Embedding of v0.2.0 `resolveDelayTime({maximum, minimum})`. Returns
`none` where the JS code would throw (inside `crypto.randomInt`). -/
def resolveDelayTime (p : DelayPair) (seed : ℕ) : Option ℕ :=
  if p.maximum = p.minimum then
    some p.maximum
  else
    (randomIntJS (p.minimum : ℚ) (p.maximum : ℚ) seed).map Int.toNat

/-! ### Facts about the delay resolvers -/

theorem randomIntJS_eq_some (lo hi : ℚ) (seed : ℕ)
    (h : qIsSafeInteger lo ∧ qIsSafeInteger hi ∧ lo < hi ∧ hi - lo < (2 : ℚ) ^ 48) :
    randomIntJS lo hi seed = some (lo.num + (seed : ℤ) % (hi.num - lo.num)) := by
  simp [randomIntJS, h]

theorem natCast_qIsSafeInteger {n : ℕ} (h : n ≤ 2 ^ 53 - 1) :
    qIsSafeInteger (n : ℚ) := by
  constructor
  · exact Rat.den_natCast n
  · simpa [Rat.num_natCast] using h

/-- For natural bounds within the documented ranges, `randomIntJS` always
succeeds and its value lies in `[lo, hi)`. -/
theorem randomIntJS_nat_mem (lo hi : ℕ) (seed : ℕ)
    (hlt : lo < hi) (hsafe : hi ≤ 2 ^ 53 - 1) (hrange : hi - lo < 2 ^ 48) :
    ∃ z : ℤ, randomIntJS (lo : ℚ) (hi : ℚ) seed = some z ∧ (lo : ℤ) ≤ z ∧ z < (hi : ℤ) := by
  have hlo : qIsSafeInteger (lo : ℚ) := natCast_qIsSafeInteger (le_trans (Nat.le_of_lt hlt) hsafe)
  have hhi : qIsSafeInteger (hi : ℚ) := natCast_qIsSafeInteger hsafe
  have hltq : (lo : ℚ) < (hi : ℚ) := by exact_mod_cast hlt
  have hrq : (hi : ℚ) - (lo : ℚ) < (2 : ℚ) ^ 48 := by
    have : ((hi - lo : ℕ) : ℚ) < ((2 ^ 48 : ℕ) : ℚ) := by exact_mod_cast hrange
    have hsub : ((hi - lo : ℕ) : ℚ) = (hi : ℚ) - (lo : ℚ) := by
      push_cast [Nat.cast_sub (Nat.le_of_lt hlt)]; ring
    rw [hsub] at this
    simpa using this
  refine ⟨(lo : ℤ) + (seed : ℤ) % ((hi : ℤ) - (lo : ℤ)), ?_, ?_, ?_⟩
  · have := randomIntJS_eq_some (lo : ℚ) (hi : ℚ) seed ⟨hlo, hhi, hltq, hrq⟩
    simpa [Rat.num_natCast] using this
  · have hpos : (0 : ℤ) < (hi : ℤ) - (lo : ℤ) := by omega
    have := Int.emod_nonneg (seed : ℤ) (ne_of_gt hpos)
    omega
  · have hpos : (0 : ℤ) < (hi : ℤ) - (lo : ℤ) := by omega
    have := Int.emod_lt_of_pos (seed : ℤ) hpos
    omega

/-- For valid, range-bounded delay pairs with `minimum < maximum`,
`resolveDelayTime` always succeeds with a value in `[minimum, maximum)`. -/
theorem resolveDelayTime_mem (p : DelayPair) (seed : ℕ)
    (hlt : p.minimum < p.maximum) (hsafe : p.maximum ≤ 2 ^ 53 - 1)
    (hrange : p.maximum - p.minimum < 2 ^ 48) :
    ∃ d : ℕ, resolveDelayTime p seed = some d ∧ p.minimum ≤ d ∧ d < p.maximum := by
  obtain ⟨z, hz, hz1, hz2⟩ := randomIntJS_nat_mem p.minimum p.maximum seed hlt hsafe hrange
  refine ⟨z.toNat, ?_, ?_, ?_⟩
  · simp [resolveDelayTime, Nat.ne_of_gt hlt, hz]
  · omega
  · omega

/-! ## String and header-map helpers

The codec operates on JS (UTF-16) strings; the embedding uses `List Char`
with the cursor arithmetic of the source. All characters the repository's
grammar distinguishes are in the Basic Multilingual Plane, where a JS
code unit and a Lean `Char` coincide. -/

/-- Characters treated as whitespace by the JS regexp class `\s` and by
`String.prototype.trimStart` (the ASCII whitespace characters plus
no-break space, BOM, and the line/paragraph separators; the remaining
Unicode `Zs` code points are omitted, none of which the repository's
grammar or the claims exercise). -/
def isJsWhitespace (c : Char) : Bool :=
  c = ' ' || c = '\t' || c = '\n' || c = '\r' || c.toNat = 0xB || c.toNat = 0xC ||
    c.toNat = 0xA0 || c.toNat = 0xFEFF || c.toNat = 0x2028 || c.toNat = 0x2029

/-- JS `value.charAt(i)` for comparison purposes; out-of-range reads give
a sentinel that equals none of the delimiter characters the parser
compares against (JS returns the empty string there, which likewise
compares unequal). -/
def charAt (s : List Char) (i : ℕ) : Char :=
  s.getD i (Char.ofNat 0)

/-- JS `value.slice(start, stop)` (characters in `[start, stop)`). -/
def jsSlice (s : List Char) (start stop : ℕ) : List Char :=
  (s.take stop).drop start

/-- Embedding of `cursorWhitespaceSkipper` (dist/header/link.js lines
24-27): the number of leading whitespace characters of `value.slice(cursor)`. -/
def cursorWhitespaceSkipper (s : List Char) (cursor : ℕ) : ℕ :=
  ((s.drop cursor).takeWhile isJsWhitespace).length

/-- JS `value.indexOf(ch, start)`, with `none` for the JS result `-1`. -/
def indexOfFrom (s : List Char) (ch : Char) (start : ℕ) : Option ℕ :=
  ((s.drop start).findIdx? (· == ch)).map (· + start)

/-- ASCII lower-casing of one character (`String.prototype.toLowerCase`
restricted to the ASCII range that the repository's grammar produces). -/
def strToLower (s : String) : String :=
  String.mk (s.toList.map Char.toLower)

/-- JS object property assignment `obj[k] = v`: overwriting keeps the
property's original position, a fresh key is appended. -/
def objSet (m : List (String × String)) (k v : String) : List (String × String) :=
  if m.any (fun p => p.1 == k) then
    m.map (fun p => if p.1 == k then (k, v) else p)
  else
    m ++ [(k, v)]

/-- Case-insensitive name lookup of the WHATWG `Headers` interface
(external collaborator); header lists in the claims carry at most one
value per name, so value combining is not modelled. -/
def headersGet (hs : List (String × String)) (name : String) : Option String :=
  (hs.find? (fun p => strToLower p.1 == strToLower name)).map (·.2)

/-- WHATWG `Headers.has`. -/
def headersHas (hs : List (String × String)) (name : String) : Bool :=
  (headersGet hs name).isSome

/-- WHATWG `Headers.set`: replace the value in place when the name is
present (case-insensitively), otherwise append. -/
def headersSet (hs : List (String × String)) (name value : String) : List (String × String) :=
  if headersHas hs name then
    hs.map (fun p => if strToLower p.1 == strToLower name then (p.1, value) else p)
  else
    hs ++ [(name, value)]

/-! ## ECMAScript `encodeURI` / `decodeURI`

External collaborators of the codec, modelled from the ECMAScript
specification of `Encode` and `Decode` with the `uriReserved ∪ "#"`
preserve set, over Unicode scalar values with UTF-8 escape bytes. -/

/-- The `uriReserved` characters together with `"#"` — the set that
`encodeURI` leaves intact and whose escapes `decodeURI` refuses to decode. -/
def isUriReservedOrHash (c : Char) : Bool :=
  [';', '/', '?', ':', '@', '&', '=', '+', '$', ','].contains c || c = '#'

/-- The `uriUnescaped` characters: ASCII alphanumerics and the marks. -/
def isUriUnescaped (c : Char) : Bool :=
  c.isAlphanum || ['-', '_', '.', '!', '~', '*', '\'', '(', ')'].contains c

/-- UTF-8 bytes of a code point. -/
def utf8EncodeNat (n : ℕ) : List ℕ :=
  if n < 0x80 then [n]
  else if n < 0x800 then [0xC0 + n / 64, 0x80 + n % 64]
  else if n < 0x10000 then [0xE0 + n / 4096, 0x80 + (n / 64) % 64, 0x80 + n % 64]
  else [0xF0 + n / 262144, 0x80 + (n / 4096) % 64, 0x80 + (n / 64) % 64, 0x80 + n % 64]

/-- Upper-case hexadecimal digit. -/
def hexDigitChar (n : ℕ) : Char :=
  if n < 10 then Char.ofNat (48 + n) else Char.ofNat (55 + n)

/-- A percent escape `%XY` of one byte. -/
def byteToHex (b : ℕ) : List Char :=
  ['%', hexDigitChar (b / 16), hexDigitChar (b % 16)]

/-- ECMAScript `encodeURI`. -/
def encodeURIChars (s : List Char) : List Char :=
  s.flatMap (fun c =>
    if isUriUnescaped c || isUriReservedOrHash c then [c]
    else (utf8EncodeNat c.toNat).flatMap byteToHex)

/-- Hexadecimal digit value (both cases), `none` for a non-hex character. -/
def hexVal (c : Char) : Option ℕ :=
  if c.isDigit then some (c.toNat - 48)
  else if 65 ≤ c.toNat ∧ c.toNat ≤ 70 then some (c.toNat - 55)
  else if 97 ≤ c.toNat ∧ c.toNat ≤ 102 then some (c.toNat - 97 + 10)
  else none

/-- Reads the escape `%XY` at the head of the list, returning the byte,
the original two hex characters, and the rest. -/
def readEscape : List Char → Option (ℕ × List Char × List Char)
  | '%' :: h₁ :: h₂ :: rest =>
    match hexVal h₁, hexVal h₂ with
    | some v₁, some v₂ => some (16 * v₁ + v₂, [h₁, h₂], rest)
    | _, _ => none
  | _ => none

/-- Reads `k` UTF-8 continuation bytes, all written as escapes. -/
def readContinuations : ℕ → List Char → Option (ℕ × List Char)
  | 0, rest => some (0, rest)
  | k + 1, s =>
    match readEscape s with
    | some (b, _, rest) =>
      if 0x80 ≤ b ∧ b < 0xC0 then
        (readContinuations k rest).map (fun pr => (pr.1 * 64 + (b - 0x80), pr.2))
      else none
    | none => none

/-- Folds big-endian base-64 digits onto a leading value. -/
def joinUtf8 (lead : ℕ) (k cont : ℕ) : ℕ :=
  lead * 64 ^ k + cont

/-- ECMAScript `Decode` with the `uriReserved ∪ "#"` preserve set: a
single-byte escape of a preserved character is kept as written, any other
valid escape sequence is decoded, and a malformed sequence raises a
`URIError` (modelled as `none`). -/
def decodeURIAux : ℕ → List Char → Option (List Char)
  | 0, _ => none
  | _ + 1, [] => some []
  | fuel + 1, c :: rest =>
    if c = '%' then
      match readEscape (c :: rest) with
      | none => none
      | some (b, orig, rest₁) =>
        if b < 0x80 then
          let d := Char.ofNat b
          (decodeURIAux fuel rest₁).map (fun tl =>
            (if isUriReservedOrHash d then '%' :: orig else [d]) ++ tl)
        else
          let info : Option (ℕ × ℕ × ℕ) :=
            if 0xC2 ≤ b ∧ b ≤ 0xDF then some (b - 0xC0, 1, 0x80)
            else if 0xE0 ≤ b ∧ b ≤ 0xEF then some (b - 0xE0, 2, 0x800)
            else if 0xF0 ≤ b ∧ b ≤ 0xF4 then some (b - 0xF0, 3, 0x10000)
            else none
          match info with
          | none => none
          | some (lead, k, lowest) =>
            match readContinuations k rest₁ with
            | none => none
            | some (cont, rest₂) =>
              let cp := joinUtf8 lead k cont
              if lowest ≤ cp ∧ cp ≤ 0x10FFFF ∧ ¬(0xD800 ≤ cp ∧ cp ≤ 0xDFFF) then
                (decodeURIAux fuel rest₂).map (fun tl => Char.ofNat cp :: tl)
              else none
    else
      (decodeURIAux fuel rest).map (fun tl => c :: tl)

/-- ECMAScript `decodeURI`; `none` models a thrown `URIError`. -/
def decodeURIChars (s : List Char) : Option (List Char) :=
  decodeURIAux (s.length + 1) s

/-! ## Link header codec (dist/header/link.js) -/

/-- An HTTP header `Link` entry: a URI together with its parameter object
(as an ordered association list, mirroring JS object property order). -/
abbrev HTTPHeaderLinkEntry := String × List (String × String)

/-- The parameters whose values are lower-cased on read
(`httpHeaderLinkParametersNeedLowerCase`). -/
def httpHeaderLinkParametersNeedLowerCase : List String := ["rel", "type"]

/-- Embedding of `checkURI` (link.js lines 12-16): whitespace characters
are rejected (the regexp `\r?\n|\s|\t` is the whitespace class). -/
def checkURI (uri : List Char) : Bool :=
  uri.any isJsWhitespace

/-- JS `\w` together with `-`: the characters of a parameter name body. -/
def isParamWordChar (c : Char) : Bool :=
  c.isAlphanum || c = '_' || c = '-'

/-- The match of the parameter-name regexp `^[\w-]+\*?` (empty when the
regexp fails to match). -/
def matchParamName (s : List Char) : List Char :=
  let base := s.takeWhile isParamWordChar
  if base.isEmpty then []
  else
    match s.drop base.length with
    | '*' :: _ => base ++ ['*']
    | _ => base

/-- The quoted-string scan of `#parse` (link.js lines 104-117): consumes
until the closing unescaped quote (or the end of the string, silently),
a backslash escaping the following character. Returns the collected
value and the cursor after the scan. Out-of-range reads append nothing,
as in JS where `charAt` yields the empty string. -/
def scanQuoted (s : List Char) : ℕ → List Char → ℕ → (List Char × ℕ)
  | 0, acc, cursor => (acc, cursor)
  | fuel + 1, acc, cursor =>
    if cursor < s.length then
      if charAt s cursor = '"' then (acc, cursor + 1)
      else
        let cursor' := if charAt s cursor = '\\' then cursor + 1 else cursor
        scanQuoted s fuel (acc ++ (jsSlice s cursor' (cursor' + 1))) (cursor' + 1)
    else (acc, cursor)

/-- The parameter loop of `#parse` (link.js lines 80-140). Given the
cursor just after the entry's first `;`, accumulates the parameter
object until the end of the entry (`,` or end of string), returning it
with the final cursor (left on the terminating `,` when there is one).
The unquoted-value branch reproduces the source's arithmetic exactly:
the relative offset of `String.prototype.search` is used as an absolute
slice end (link.js lines 119-127). -/
def parseParams (s : List Char) : ℕ → List (String × String) → ℕ →
    Except String (List (String × String) × ℕ)
  | 0, _, _ => .error "parser out of fuel"
  | fuel + 1, ps, cursor₀ =>
    if cursor₀ < s.length then
      let cursor := cursor₀ + cursorWhitespaceSkipper s cursor₀
      let nameRaw := matchParamName (s.drop cursor)
      if nameRaw.isEmpty then
        .error "expect a valid parameter name"
      else
        let parameterName := String.mk (nameRaw.map Char.toLower)
        let cursor := cursor + nameRaw.length
        let cursor := cursor + cursorWhitespaceSkipper s cursor
        if cursor = s.length || charAt s cursor = ',' then
          .ok (objSet ps parameterName "", cursor)
        else if charAt s cursor = ';' then
          parseParams s fuel (objSet ps parameterName "") (cursor + 1)
        else if charAt s cursor ≠ '=' then
          .error "expect character ="
        else
          let cursor := cursor + 1
          let cursor := cursor + cursorWhitespaceSkipper s cursor
          let scanned : List Char × ℕ :=
            if charAt s cursor = '"' then
              scanQuoted s (s.length + 1) [] (cursor + 1)
            else
              match (s.drop cursor).findIdx? (fun c => isJsWhitespace c || c == ';' || c == ',') with
              | none =>
                let v := s.drop cursor
                (v, cursor + v.length)
              | some cursorDiffParameterValue =>
                (jsSlice s cursor cursorDiffParameterValue, cursor + cursorDiffParameterValue)
          let parameterValue := String.mk scanned.1
          let cursor := scanned.2
          let stored :=
            if httpHeaderLinkParametersNeedLowerCase.contains parameterName then
              strToLower parameterValue
            else parameterValue
          let ps := objSet ps parameterName stored
          let cursor := cursor + cursorWhitespaceSkipper s cursor
          if cursor = s.length || charAt s cursor = ',' then
            .ok (ps, cursor)
          else if charAt s cursor = ';' then
            parseParams s fuel ps (cursor + 1)
          else
            .error "expect comma or semicolon or end of the string"
    else .ok (ps, cursor₀)

/-- The entry loop of `#parse` (link.js lines 52-142): each iteration
consumes one `<uri>` with optional parameters and pushes one entry. -/
def parseEntries (s : List Char) : ℕ → List HTTPHeaderLinkEntry → ℕ →
    Except String (List HTTPHeaderLinkEntry)
  | 0, _, _ => .error "parser out of fuel"
  | fuel + 1, acc, cursor₀ =>
    if cursor₀ < s.length then
      let cursor := cursor₀ + cursorWhitespaceSkipper s cursor₀
      if charAt s cursor ≠ '<' then
        .error "expect character <"
      else
        let cursor := cursor + 1
        match indexOfFrom s '>' cursor with
        | none => .error "missing end of URI delimiter after cursor"
        | some cursorEndURI =>
          if cursorEndURI = cursor then
            .error "missing URI at cursor"
          else
            let uriSlice := jsSlice s cursor cursorEndURI
            if checkURI uriSlice then
              .error "whitespace characters are not allow in URI"
            else
              match decodeURIChars uriSlice with
              | none => .error "URIError malformed URI sequence"
              | some uri =>
                let cursor := cursorEndURI + 1
                let cursor := cursor + cursorWhitespaceSkipper s cursor
                if cursor = s.length || charAt s cursor = ',' then
                  parseEntries s fuel (acc ++ [(String.mk uri, [])]) (cursor + 1)
                else if charAt s cursor ≠ ';' then
                  .error "expect character ;"
                else
                  match parseParams s (s.length + 1) [] (cursor + 1) with
                  | .error e => .error e
                  | .ok (parameters, cursor) =>
                    parseEntries s fuel (acc ++ [(String.mk uri, parameters)]) (cursor + 1)
    else .ok acc

/-- Embedding of `HTTPHeaderLink.#parse` on a raw header string
(link.js lines 47-143): the empty string contributes no entries, BOM and
no-break-space characters are removed first, then the entry loop runs.
`Except.error` models a thrown `SyntaxError` or `URIError`. -/
def parseLink (value : String) : Except String (List HTTPHeaderLinkEntry) :=
  let cs := value.toList
  if cs.isEmpty then .ok []
  else
    let valueResolve := cs.filter (fun c => !(c.toNat = 0xFEFF || c.toNat = 0xA0))
    parseEntries valueResolve (valueResolve.length + 1) [] 0

/-- Embedding of `HTTPHeaderLink.toString` for one entry (link.js lines
231-237): angle-bracketed `encodeURI` of the URI, then `; k="v"` with
only double quotes backslash-escaped for a non-empty value, `; k` for an
empty one. -/
def linkEntryToString (e : HTTPHeaderLinkEntry) : String :=
  e.2.foldl
    (fun result p =>
      if p.2.length > 0 then
        result ++ "; " ++ p.1 ++ "=\"" ++
          String.mk (p.2.toList.flatMap (fun c => if c = '"' then ['\\', '"'] else [c])) ++ "\""
      else result ++ "; " ++ p.1)
    ("<" ++ String.mk (encodeURIChars e.1.toList) ++ ">")

/-- Embedding of `HTTPHeaderLink.toString` (link.js lines 230-239). -/
def linkToString (entries_ : List HTTPHeaderLinkEntry) : String :=
  String.intercalate ", " (entries_.map linkEntryToString)

/-- Modelled from the spec: `isStringCaseLower` comes from the external
package `@hugoalh/advanced-determine`, absent from this repository; per
spec section 4.1 a query key or `rel` query value must already be
lower-case or the call fails, so the test is that lower-casing the
string changes nothing. -/
def isStringCaseLower (s : String) : Bool :=
  s.toList.all (fun c => Char.toLower c == c)

/-- Parameter lookup on the stored parameter object. -/
def lookupParam (ps : List (String × String)) (k : String) : Option String :=
  (ps.find? (fun p => p.1 == k)).map (·.2)

/-- Embedding of `HTTPHeaderLink.getByRel` (link.js lines 209-216): the
query value must be lower-case, and entries match when their stored
`rel` value lower-cases to the query. -/
def getByRel (entries_ : List HTTPHeaderLinkEntry) (value : String) :
    Except String (List HTTPHeaderLinkEntry) :=
  if isStringCaseLower value then
    .ok (entries_.filter (fun e => (lookupParam e.2 "rel").map strToLower == some value))
  else
    .error "is not a valid parameter rel value"

/-! ## Retry-After resolver (spec-modelled) -/

/-- Modelled from the spec: `dist/header/retry-after.js` is not under
`src/` (only its declaration file is). Per spec sections 4.2, 7 and 9, a
missing or unparsable `Retry-After` header makes the resolver throw a
format error, which the orchestrator always recovers from by falling
back to the computed backoff delay, and a delta-seconds header yields
that many seconds of remaining time at the instant of construction
(1000 milliseconds each). The HTTP-date form is not modelled; the claims
only exercise the absent-header path. -/
def retryAfterRemainMsModel (header : Option String) : Option ℕ :=
  match header with
  | none => none
  | some s =>
    if s.length ≠ 0 && s.toList.all Char.isDigit then
      some (1000 * s.toList.foldl (fun n c => n * 10 + (c.toNat - 48)) 0)
    else none

/-! ## Request orchestrator (v0.2.0 `ExFetch.fetch`, dist/exfetch.js lines 257-339) -/

/-- The observable part of a transport response (spec section 6). `ok` is
derived from `status` as the Fetch standard defines it. -/
structure Response where
  status : ℕ
  statusText : String
  headers : List (String × String)
deriving DecidableEq, Repr

/-- Fetch-standard `Response.ok`: status in the inclusive range 200-299. -/
def Response.isOk (r : Response) : Bool :=
  200 ≤ r.status && r.status < 300

/-- The request settings the orchestrator reads and forwards: the header
list, the `redirect` mode, and whether an abort signal was supplied
(cancellation is never triggered in the scenarios the claims describe,
so only the signal's presence is tracked). -/
structure RequestInit where
  headers : List (String × String)
  redirect : Option String
  hasSignal : Bool
deriving DecidableEq, Repr

/-- Interface model of the host WHATWG `URL` class: `parse` is
`new URL(s)` (`none` models the thrown `TypeError`), `protocol` reads
the protocol of a parsed URL, and `resolve` is `new URL(rel, base)`. -/
structure URLApi where
  parse : String → Option String
  protocol : String → String
  resolve : String → String → Option String

/-- `httpStatusCodesRedirectable` (dist/exfetch.js lines 33-39). -/
def httpStatusCodesRedirectable : List ℕ := [301, 302, 303, 307, 308]

/-- `httpStatusCodesRetryable` (dist/exfetch.js lines 43-53). -/
def httpStatusCodesRetryable : List ℕ := [408, 429, 500, 502, 503, 504, 506, 507, 508]

/-- The private state of a constructed v0.2.0 `ExFetch` instance that the
`fetch` method reads. `none` in `redirectMaximum` / `timeout` models
`Infinity`; the constructor validates every numeric field as a
non-negative safe integer with `minimum <= maximum` on the delay pairs. -/
structure FetchConfig where
  httpStatusCodesRetryable : List ℕ
  redirectDelay : DelayPair
  redirectMaximum : Option ℕ
  retryDelay : DelayPair
  retryMaximum : ℕ
  timeout : Option ℕ
  userAgent : String

/-- The default instance state (dist/exfetch.js lines 167-201 and 207). -/
def defaultFetchConfig : FetchConfig where
  httpStatusCodesRetryable := httpStatusCodesRetryable
  redirectDelay := ⟨0, 0⟩
  redirectMaximum := none
  retryDelay := ⟨60000, 1000⟩
  retryMaximum := 4
  timeout := none
  userAgent := "exFetch/0.2.0"

/-- `requestRedirectControl` (dist/exfetch.js line 265): redirects are
intercepted exactly when the caller asked for `"follow"` and the
configured redirect maximum is finite. -/
def requestRedirectControl (cfg : FetchConfig) (init : RequestInit) : Bool :=
  init.redirect == some "follow" && cfg.redirectMaximum.isSome

/-- The request headers after the orchestrator's `User-Agent` merge
(dist/exfetch.js lines 261-264). -/
def mergedRequestHeaders (cfg : FetchConfig) (init : RequestInit) : List (String × String) :=
  if !headersHas init.headers "User-Agent" && cfg.userAgent.length > 0 then
    headersSet init.headers "User-Agent" cfg.userAgent
  else init.headers

/-- The `requestFetchInit` the loop passes to every transport call
(dist/exfetch.js lines 266-276): merged headers, `"manual"` redirect
mode under redirect control, and a signal that is the caller's or one
derived from a finite timeout. -/
def mergedRequestInit (cfg : FetchConfig) (init : RequestInit) : RequestInit where
  headers := mergedRequestHeaders cfg init
  redirect := if requestRedirectControl cfg init then some "manual" else init.redirect
  hasSignal := init.hasSignal || cfg.timeout.isSome

/-- JS `redirects >= this.#redirect.maximum` with `Infinity` as `none`. -/
def redirectsExhausted (maximum? : Option ℕ) (redirects : ℕ) : Bool :=
  match maximum? with
  | none => false
  | some m => m ≤ redirects

/-- The observable outcome of one `ExFetch.fetch` call: the returned
response, every transport call in order (URL and request settings), and
the redirect and retry waits in order. -/
structure FetchResult where
  response : Response
  sends : List (String × RequestInit)
  redirectWaits : List ℕ
  retryWaits : List ℕ
deriving Repr

/-- The do-while loop of v0.2.0 `ExFetch.fetch` (dist/exfetch.js lines
277-338). The transport is indexed by the ordinal of the send within
this call; `rand` supplies one entropy draw per delay resolution;
`Except.error` models an uncaught throw (only `crypto.randomInt` can
throw here). The fuel only bounds the recursion depth and every theorem
supplies more than the scenario consumes. -/
def fetchLoop (cfg : FetchConfig) (api : URLApi)
    (transport : ℕ → String → RequestInit → Response) (rand : ℕ → ℕ)
    (input : String) (mInit : RequestInit) (rc : Bool) :
    ℕ → String → ℕ → ℕ → List (String × RequestInit) → List ℕ → List ℕ → ℕ →
    Except String FetchResult
  | 0, _, _, _, _, _, _, _ => .error "loop fuel exhausted"
  | fuel + 1, url, redirects, retries, sends, dw, rw, rnd =>
    let response := transport sends.length url mInit
    let sends := sends ++ [(url, mInit)]
    if response.status = 304 then
      .ok ⟨response, sends, dw, rw⟩
    else if rc && httpStatusCodesRedirectable.contains response.status then
      if redirectsExhausted cfg.redirectMaximum redirects then
        .ok ⟨response, sends, dw, rw⟩
      else
        match headersGet response.headers "Location" with
        | none => .ok ⟨response, sends, dw, rw⟩
        | some redirectURL =>
          let redirects := redirects + 1
          match api.resolve redirectURL input with
          | none => .ok ⟨response, sends, dw, rw⟩
          | some requestFetchInput =>
            match resolveDelayTime cfg.redirectDelay (rand rnd) with
            | none => .error "RangeError from crypto.randomInt"
            | some delayTime =>
              if retries ≤ cfg.retryMaximum then
                fetchLoop cfg api transport rand input mInit rc fuel
                  requestFetchInput redirects retries sends (dw ++ [delayTime]) rw (rnd + 1)
              else
                .ok ⟨response, sends, dw ++ [delayTime], rw⟩
    else if response.isOk || cfg.retryMaximum ≤ retries ||
        !cfg.httpStatusCodesRetryable.contains response.status then
      .ok ⟨response, sends, dw, rw⟩
    else
      let retries := retries + 1
      let delayTime? :=
        match retryAfterRemainMsModel (headersGet response.headers "Retry-After") with
        | some t => some t
        | none => resolveDelayTime cfg.retryDelay (rand rnd)
      match delayTime? with
      | none => .error "RangeError from crypto.randomInt"
      | some delayTime =>
        if retries ≤ cfg.retryMaximum then
          fetchLoop cfg api transport rand input mInit rc fuel
            url redirects retries sends dw (rw ++ [delayTime]) (rnd + 1)
        else
          .ok ⟨response, sends, dw, rw ++ [delayTime]⟩

/-- Embedding of v0.2.0 `ExFetch.fetch` (dist/exfetch.js lines 257-340):
a `file:` URL short-circuits to one direct transport call with the
caller's settings untouched; otherwise the merged settings are fixed and
the retry/redirect loop runs. -/
def fetchModel (cfg : FetchConfig) (api : URLApi)
    (transport : ℕ → String → RequestInit → Response) (rand : ℕ → ℕ)
    (input : String) (init : RequestInit) (fuel : ℕ) : Except String FetchResult :=
  match api.parse input with
  | none => .error "TypeError invalid URL"
  | some parsed =>
    if api.protocol parsed = "file:" then
      .ok ⟨transport 0 input init, [(input, init)], [], []⟩
    else
      fetchLoop cfg api transport rand input (mergedRequestInit cfg init)
        (requestRedirectControl cfg init) fuel input 0 0 [] [] [] 0

/-! ## Paginator (v0.2.0 `ExFetch.fetchPaginate`, dist/exfetch.js lines 350-389) -/

/-- The resolved pagination options (`ExFetchPaginateOptionsInternal`);
`none` in `maximum` models `Infinity`. -/
structure PaginateConfig where
  delay : DelayPair
  maximum : Option ℕ
  throwOnInvalidHeaderLink : Bool

/-- JS `page <= options.maximum` with `Infinity` as `none`. -/
def pageWithinMaximum (maximum? : Option ℕ) (page : ℕ) : Bool :=
  match maximum? with
  | none => true
  | some m => page ≤ m

/-- The default `linkUpNextPage` closure (dist/exfetch.js lines 173-179):
the first entry with relation `next`, resolved against the current URL;
a throw inside it (from `getByRel` or `new URL`) propagates uncaught. -/
def defaultLinkUpNextPage (api : URLApi) (currentHeaderLink : List HTTPHeaderLinkEntry)
    (currentURL : String) : Except String (Option String) :=
  match getByRel currentHeaderLink "next" with
  | .error e => .error e
  | .ok entryNextPage =>
    match entryNextPage with
    | [] => .ok none
    | (uri, _) :: _ =>
      match api.resolve uri currentURL with
      | none => .error "TypeError invalid URL"
      | some u => .ok (some u)

/-- The observable outcome of one `fetchPaginate` call: the returned
response sequence, every transport call made by the inner `fetch` calls
in order, and the inter-page waits. -/
structure PaginateResult where
  responses : List Response
  sends : List (String × RequestInit)
  pageWaits : List ℕ
deriving Repr

/-- The for-loop of v0.2.0 `ExFetch.fetchPaginate` (dist/exfetch.js lines
353-387): while the page count is within the maximum and a next URL is
known, wait between pages (from page 2 on), fetch, record the response,
and on a successful response parse its `Link` header — a parse failure
propagates as a wrapped format error when `throwOnInvalidHeaderLink` is
set and otherwise just leaves the next URL unknown. -/
def paginateLoop (cfg : FetchConfig) (pc : PaginateConfig) (api : URLApi)
    (transport : ℕ → String → RequestInit → Response) (rand : ℕ → ℕ)
    (linkUpNextPage : List HTTPHeaderLinkEntry → String → Except String (Option String))
    (init : RequestInit) (fetchFuel : ℕ) :
    ℕ → ℕ → Option String → PaginateResult → Except String PaginateResult
  | 0, _, _, _ => .error "page fuel exhausted"
  | fuel + 1, page, uri?, acc =>
    match uri? with
    | none => .ok acc
    | some uriLookUp =>
      if pageWithinMaximum pc.maximum page then
        match (if 1 < page then resolveDelayTime pc.delay (rand (fetchFuel + page)) else some 0) with
        | none => .error "RangeError from crypto.randomInt"
        | some delayTime =>
          let acc := if 1 < page then
              { acc with pageWaits := acc.pageWaits ++ [delayTime] }
            else acc
          match fetchModel cfg api transport rand uriLookUp init fetchFuel with
          | .error e => .error e
          | .ok fr =>
            let acc := { acc with
              responses := acc.responses ++ [fr.response],
              sends := acc.sends ++ fr.sends }
            if fr.response.isOk then
              match parseLink ((headersGet fr.response.headers "Link").getD "") with
              | .error e =>
                if pc.throwOnInvalidHeaderLink then
                  .error ("[" ++ uriLookUp ++ "] " ++ e)
                else
                  paginateLoop cfg pc api transport rand linkUpNextPage init fetchFuel
                    fuel (page + 1) none acc
              | .ok responseHeaderLink =>
                match linkUpNextPage responseHeaderLink uriLookUp with
                | .error e => .error e
                | .ok next =>
                  paginateLoop cfg pc api transport rand linkUpNextPage init fetchFuel
                    fuel (page + 1) next acc
            else
              paginateLoop cfg pc api transport rand linkUpNextPage init fetchFuel
                fuel (page + 1) none acc
      else .ok acc

/-- Embedding of v0.2.0 `ExFetch.fetchPaginate`: parse the initial URL
and run the page loop from page 1. -/
def fetchPaginateModel (cfg : FetchConfig) (pc : PaginateConfig) (api : URLApi)
    (transport : ℕ → String → RequestInit → Response) (rand : ℕ → ℕ)
    (linkUpNextPage : List HTTPHeaderLinkEntry → String → Except String (Option String))
    (init : RequestInit) (fetchFuel fuel : ℕ) (input : String) :
    Except String PaginateResult :=
  match api.parse input with
  | none => .error "TypeError invalid URL"
  | some uri => paginateLoop cfg pc api transport rand linkUpNextPage init fetchFuel
      fuel 1 (some uri) ⟨[], [], []⟩

/-! ## Reference semantics of the Link collection (for the aliasing claim)

`HTTPHeaderLink.entries()` is `return this.#entries;` (link.js lines
184-186) — the internal array itself, not a copy — and
`add(HTTPHeaderLink)` is `this.#entries.push(...value.#entries)`
(link.js lines 153-155), which appends the other collection's entry
references. To state what JS reference mutation observes, collections
are modelled against an explicit store: entry objects live in a global
entry store, each collection owns one array of entry ids, and
`entries()` returns the id of that very array. -/

/-- The JS heap fragment the codec touches: the arrays backing each
collection's `#entries` field, and the entry objects (`[uri, parameters]`
pairs) those arrays reference. -/
structure LinkHeap where
  arrays : List (List ℕ)
  entryObjs : List HTTPHeaderLinkEntry
deriving DecidableEq, Repr

/-- A `HTTPHeaderLink` object: a reference to its backing array. -/
structure LinkObj where
  arr : ℕ
deriving DecidableEq, Repr

/-- `HTTPHeaderLink.entries()` (link.js lines 184-186): the internal
array is returned as such, so the result is the collection's own array
reference. -/
def entriesMethod (l : LinkObj) : ℕ := l.arr

/-- The entry payload a reference denotes. -/
def entryAt (h : LinkHeap) (eid : ℕ) : HTTPHeaderLinkEntry :=
  h.entryObjs.getD eid ("", [])

/-- The entry sequence observed through a collection. -/
def observedEntries (h : LinkHeap) (l : LinkObj) : List HTTPHeaderLinkEntry :=
  (h.arrays.getD l.arr []).map (entryAt h)

/-- Mutating an array through a reference to it (for instance the one
`entries()` returned): JS `arr.push(...)` of already-stored entries. -/
def arrayPush (h : LinkHeap) (aid : ℕ) (eids : List ℕ) : LinkHeap :=
  { h with arrays := h.arrays.set aid (h.arrays.getD aid [] ++ eids) }

/-- `self.add(other)` for another `HTTPHeaderLink` (link.js lines
153-155): `this.#entries.push(...value.#entries)` appends the other
collection's entry references to this collection's array. -/
def addLinkObj (h : LinkHeap) (self other : LinkObj) : LinkHeap :=
  arrayPush h self.arr (h.arrays.getD other.arr [])

/-- Mutating one parameter of a stored entry object in place
(JS `entry[1][k] = v` through any reference to the entry). -/
def setEntryParam (h : LinkHeap) (eid : ℕ) (k v : String) : LinkHeap :=
  let e := entryAt h eid
  { h with entryObjs := h.entryObjs.set eid (e.1, objSet e.2 k v) }

/-! ## Step lemmas for the orchestrator loop -/

section LoopSteps

variable {cfg : FetchConfig} {api : URLApi}
  {transport : ℕ → String → RequestInit → Response} {rand : ℕ → ℕ}
  {input : String} {mInit : RequestInit} {rc : Bool} {fuel : ℕ} {url : String}
  {redirects retries : ℕ} {sends : List (String × RequestInit)} {dw rw : List ℕ}
  {rnd : ℕ} {r : Response}

/-- A send whose response has status 304 terminates the loop at once. -/
theorem fetchLoop_304 (r : Response) (hr : transport sends.length url mInit = r) (h304 : r.status = 304) :
    fetchLoop cfg api transport rand input mInit rc (fuel + 1)
        url redirects retries sends dw rw rnd =
      .ok ⟨r, sends ++ [(url, mInit)], dw, rw⟩ := by
  simp [fetchLoop, hr, h304]

/-- A send whose response neither is a 304 nor triggers the redirect
branch terminates the loop when it is successful, the retry budget is
used up, or the status is not retryable. -/
theorem fetchLoop_terminal (r : Response) (hr : transport sends.length url mInit = r)
    (h304 : r.status ≠ 304)
    (hred : r.status ∉ httpStatusCodesRedirectable)
    (hterm : r.isOk = true ∨ cfg.retryMaximum ≤ retries ∨
      r.status ∉ cfg.httpStatusCodesRetryable) :
    fetchLoop cfg api transport rand input mInit rc (fuel + 1)
        url redirects retries sends dw rw rnd =
      .ok ⟨r, sends ++ [(url, mInit)], dw, rw⟩ := by
  simp only [fetchLoop, hr]
  simp [h304, hred]
  intro h1 h2 h3
  rcases hterm with h | h | h
  · simp [h] at h1
  · omega
  · exact absurd h3 h

/-- A retryable response below the retry budget waits and loops. -/
theorem fetchLoop_retry (r : Response) (hr : transport sends.length url mInit = r)
    (h304 : r.status ≠ 304)
    (hred : r.status ∉ httpStatusCodesRedirectable)
    (hok : r.isOk = false)
    (hlt : retries < cfg.retryMaximum)
    (hretryable : r.status ∈ cfg.httpStatusCodesRetryable)
    (hra : retryAfterRemainMsModel (headersGet r.headers "Retry-After") = none)
    (d : ℕ) (hdelay : resolveDelayTime cfg.retryDelay (rand rnd) = some d) :
    fetchLoop cfg api transport rand input mInit rc (fuel + 1)
        url redirects retries sends dw rw rnd =
      fetchLoop cfg api transport rand input mInit rc fuel
        url redirects (retries + 1) (sends ++ [(url, mInit)]) dw (rw ++ [d]) (rnd + 1) := by
  have hnotterm : ¬ (cfg.retryMaximum ≤ retries) := by omega
  have hle : retries + 1 ≤ cfg.retryMaximum := hlt
  simp [fetchLoop, hr, h304, hred, hok, hnotterm, hretryable, hra, hdelay, hle]

/-- Under redirect control, a redirectable response below the redirect
budget waits and loops at the resolved `Location`. -/
theorem fetchLoop_redirect (r : Response) (hr : transport sends.length url mInit = r)
    (h304 : r.status ≠ 304)
    (hrc : rc = true)
    (hred : r.status ∈ httpStatusCodesRedirectable)
    (hnotex : redirectsExhausted cfg.redirectMaximum redirects = false)
    {loc : String} (hloc : headersGet r.headers "Location" = some loc)
    {u : String} (hres : api.resolve loc input = some u)
    (d : ℕ) (hdelay : resolveDelayTime cfg.redirectDelay (rand rnd) = some d)
    (hretle : retries ≤ cfg.retryMaximum) :
    fetchLoop cfg api transport rand input mInit rc (fuel + 1)
        url redirects retries sends dw rw rnd =
      fetchLoop cfg api transport rand input mInit rc fuel
        u (redirects + 1) retries (sends ++ [(url, mInit)]) (dw ++ [d]) rw (rnd + 1) := by
  simp [fetchLoop, hr, h304, hrc, hred, hnotex, hloc, hres, hdelay, hretle]

/-- Under redirect control, a redirectable response with the redirect
budget exhausted is returned as-is. -/
theorem fetchLoop_redirect_exhausted (r : Response) (hr : transport sends.length url mInit = r)
    (h304 : r.status ≠ 304)
    (hrc : rc = true)
    (hred : r.status ∈ httpStatusCodesRedirectable)
    (hex : redirectsExhausted cfg.redirectMaximum redirects = true) :
    fetchLoop cfg api transport rand input mInit rc (fuel + 1)
        url redirects retries sends dw rw rnd =
      .ok ⟨r, sends ++ [(url, mInit)], dw, rw⟩ := by
  simp [fetchLoop, hr, h304, hrc, hred, hex]

end LoopSteps

/-! ## Claim C4 -/

/-- C4: the claim says an unquoted parameter token runs from the
character after `=` to the first whitespace, `;`, or `,`, so parsing
`<https://a>; rel=next, <https://b>` should give the first entry the
`rel` value `next`. Evaluating the embedded parser at that input shows
the code instead stores the empty string: the relative offset returned
by `String.prototype.search` is used as an absolute `slice` end
(link.js lines 119-127), so the slice is empty. -/
theorem C4_unquoted_value_is_dropped :
    parseLink "<https://a>; rel=next, <https://b>" =
      .ok [("https://a", [("rel", "")]), ("https://b", [])] := by
  decide

/-! ## Claim C3 -/

/-- C3: the round-trip `parse (stringify c) = c` fails for a collection
produced by a successful parse. Parsing the header
`<https://a>; k="\\"` (a quoted value of one escaped backslash) yields
the parameter value of a single backslash; `toString` escapes only
double quotes, so it renders `<https://a>; k="\"`, which reparses
(without error) to the parameter value of a single double quote — a
different collection. -/
theorem C3_roundtrip_fails :
    parseLink "<https://a>; k=\"\\\\\"" = .ok [("https://a", [("k", "\\")])] ∧
    linkToString [("https://a", [("k", "\\")])] = "<https://a>; k=\"\\\"" ∧
    parseLink (linkToString [("https://a", [("k", "\\")])]) =
      .ok [("https://a", [("k", "\"")])] ∧
    (([("https://a", [("k", "\"")])] : List HTTPHeaderLinkEntry) ≠
      [("https://a", [("k", "\\")])]) := by
  refine ⟨by decide, by decide, by decide, by decide⟩

/-! ## Claim C5 -/

/-- C5: the claim says resolution with `increment` always succeeds with
a uniform integer at or above the widened lower bound. At
`attemptCurrent = 1`, `attempts = 3`, `minimum = 0`, `maximum = 10` the
widened lower bound is `10/3`, which is not a safe integer, so the
`crypto.randomInt` call throws a `RangeError` and resolution fails
(modelled as `none`) instead of returning an integer of `[10/3, 10)`. -/
theorem C5_increment_resolution_throws :
    resolveIntervalTime 1 3 true 10 0 0 = none := by
  have h : randomIntJS (10 / 3) 10 0 = none := by
    rw [randomIntJS, if_neg]
    rintro ⟨⟨hden, -⟩, -⟩
    norm_num [Rat.den_div_eq_of_coprime] at hden
  norm_num [resolveIntervalTime, h]

/-! ## Claim C8 -/

/-- C8 counterexample: for the valid delay range with `minimum = 0` and
`maximum = 2^48` (both non-negative safe integers, minimum < maximum and
`increment` disabled), resolution does not return a value in
`[minimum, maximum)`: the range reaches the `crypto.randomInt` limit of
`2^48`, so the call throws and resolution fails. -/
theorem C8_large_range_throws :
    resolveDelayTime ⟨281474976710656, 0⟩ 0 = none := by
  rw [resolveDelayTime, if_neg (by decide)]
  rw [randomIntJS, if_neg]
  · rfl
  · rintro ⟨-, -, -, hlt⟩
    norm_num at hlt

/-- C8 amended: for every valid delay range with `minimum = maximum = k`,
every resolution returns exactly `k` with no randomness; and for every
valid delay range with `minimum < maximum` whose width is below the
`crypto.randomInt` limit of `2^48`, every resolution returns an integer
in `[minimum, maximum)`. -/
theorem C8_delay_resolution_bounds (k : ℕ) (p : DelayPair) (seed seedEq : ℕ)
    (hlt : p.minimum < p.maximum) (hsafe : p.maximum ≤ 2 ^ 53 - 1)
    (hrange : p.maximum - p.minimum < 2 ^ 48) :
    resolveDelayTime ⟨k, k⟩ seedEq = some k ∧
      ∃ d, resolveDelayTime p seed = some d ∧ p.minimum ≤ d ∧ d < p.maximum := by
  refine ⟨by simp [resolveDelayTime], ?_⟩
  exact resolveDelayTime_mem p seed hlt hsafe hrange

/-- Witness for the amended C8 theorem at `k = 7` and the range
`[2, 10)` with seed 5. -/
theorem C8_delay_resolution_bounds_witness :
    (2 : ℕ) < 10 ∧ (10 : ℕ) ≤ 2 ^ 53 - 1 ∧ (10 - 2 : ℕ) < 2 ^ 48 ∧
      (resolveDelayTime ⟨7, 7⟩ 3 = some 7 ∧
        ∃ d, resolveDelayTime ⟨10, 2⟩ 5 = some d ∧ 2 ≤ d ∧ d < 10) :=
  ⟨by decide, by decide, by decide,
    C8_delay_resolution_bounds 7 ⟨10, 2⟩ 5 3 (by decide) (by decide) (by decide)⟩

/-! ## Claim C9 -/

/-- A two-collection heap: collection `⟨0⟩` owns array 0 holding entry 0,
collection `⟨1⟩` owns the empty array 1. -/
def heapC9 : LinkHeap := ⟨[[0], []], [("https://a", [("rel", "next")])]⟩

/-- C9 counterexample: both mutation freedoms the claim asserts fail on
the code. Pushing onto the very array `entries()` returned changes the
collection's observed entry sequence, and after `B.add(A)` mutating the
shared entry object through `B`'s entries changes the entries observed
in `A`. -/
theorem C9_mutation_is_observable :
    (observedEntries (arrayPush heapC9 (entriesMethod ⟨0⟩) [0]) ⟨0⟩ ≠
      observedEntries heapC9 ⟨0⟩) ∧
    ((addLinkObj heapC9 ⟨1⟩ ⟨0⟩).arrays.getD (entriesMethod ⟨1⟩) [] = [0] ∧
      observedEntries (setEntryParam (addLinkObj heapC9 ⟨1⟩ ⟨0⟩) 0 "rel" "prev") ⟨0⟩ ≠
        observedEntries (addLinkObj heapC9 ⟨1⟩ ⟨0⟩) ⟨0⟩) := by
  refine ⟨by decide, by decide, by decide⟩

/-- C9 amended: `entries()` returns the collection's internal array
itself rather than a copy, so pushing stored entries onto the returned
array extends the collection's observed sequence; and `add` of another
`HTTPHeaderLink` appends the other collection's entry references, so a
parameter mutation of a shared entry object is observed through both
collections. -/
theorem C9_entries_alias_and_add_shares (h : LinkHeap) (A B : LinkObj)
    (eid : ℕ) (es : List ℕ) (k v : String)
    (hA : A.arr < h.arrays.length) (hB : B.arr < h.arrays.length)
    (hmem : eid ∈ h.arrays.getD A.arr [])
    (heid : eid < h.entryObjs.length) :
    entriesMethod A = A.arr ∧
    observedEntries (arrayPush h (entriesMethod A) es) A =
      observedEntries h A ++ es.map (entryAt h) ∧
    eid ∈ (addLinkObj h B A).arrays.getD B.arr [] ∧
    entryAt (setEntryParam (addLinkObj h B A) eid k v) eid =
      ((entryAt h eid).1, objSet (entryAt h eid).2 k v) := by
  refine ⟨rfl, ?_, ?_, ?_⟩
  · show ((h.arrays.set A.arr (h.arrays.getD A.arr [] ++ es)).getD A.arr []).map (entryAt h) = _
    rw [List.getD, List.get?_eq_getElem?, List.getElem?_set_self (by simpa using hA)]
    simp [observedEntries]
  · show eid ∈ (h.arrays.set B.arr (h.arrays.getD B.arr [] ++ h.arrays.getD A.arr [])).getD B.arr []
    rw [List.getD, List.get?_eq_getElem?, List.getElem?_set_self (by simpa using hB)]
    simpa using Or.inr hmem
  · show ((addLinkObj h B A).entryObjs.set eid _).getD eid ("", []) = _
    rw [List.getD, List.get?_eq_getElem?, List.getElem?_set_self (by simpa using heid)]
    rfl

/-- Witness for the amended C9 theorem on the concrete two-collection
heap. -/
theorem C9_entries_alias_and_add_shares_witness :
    (0 : ℕ) < heapC9.arrays.length ∧ (1 : ℕ) < heapC9.arrays.length ∧
    (0 : ℕ) ∈ heapC9.arrays.getD 0 [] ∧ (0 : ℕ) < heapC9.entryObjs.length ∧
    (entriesMethod ⟨0⟩ = 0 ∧
      observedEntries (arrayPush heapC9 (entriesMethod ⟨0⟩) [0]) ⟨0⟩ =
        observedEntries heapC9 ⟨0⟩ ++ [0].map (entryAt heapC9) ∧
      (0 : ℕ) ∈ (addLinkObj heapC9 ⟨1⟩ ⟨0⟩).arrays.getD 1 [] ∧
      entryAt (setEntryParam (addLinkObj heapC9 ⟨1⟩ ⟨0⟩) 0 "rel" "prev") 0 =
        ((entryAt heapC9 0).1, objSet (entryAt heapC9 0).2 "rel" "prev")) :=
  ⟨by decide, by decide, by decide, by decide,
    C9_entries_alias_and_add_shares heapC9 ⟨0⟩ ⟨1⟩ 0 [0] "rel" "prev"
      (by decide) (by decide) (by decide) (by decide)⟩

/-! ## Claim C10 -/

/-- C10: for a `file:` URL, v0.2.0 `ExFetch.fetch` returns the result of
one direct transport call with the caller's settings passed through
unchanged — no `User-Agent` merge, no derived timeout signal, no retry,
no redirect — whatever the configured policies are. -/
theorem C10_file_protocol_bypasses_features (cfg : FetchConfig) (api : URLApi)
    (transport : ℕ → String → RequestInit → Response) (rand : ℕ → ℕ)
    (input parsed : String) (init : RequestInit) (fuel : ℕ)
    (hparse : api.parse input = some parsed)
    (hproto : api.protocol parsed = "file:") :
    fetchModel cfg api transport rand input init fuel =
      .ok ⟨transport 0 input init, [(input, init)], [], []⟩ := by
  simp [fetchModel, hparse, hproto]

/-- The request settings the first transport call of `fetchModel`
receives: the raw caller settings on the `file:` bypass, the merged ones
otherwise. -/
def firstSendInit (cfg : FetchConfig) (api : URLApi) (input : String)
    (init : RequestInit) : RequestInit :=
  match api.parse input with
  | none => init
  | some parsed =>
    if api.protocol parsed = "file:" then init else mergedRequestInit cfg init

/-! ## Claim C6 -/

/-- C6: for every configuration — including retryable status-code sets
containing 304 and any redirect policy — a transport response with
status 304 makes fetch terminate at once and return that response
as-is: exactly one send, no retry wait and no redirect wait. -/
theorem C6_304_terminates (cfg : FetchConfig) (api : URLApi)
    (transport : ℕ → String → RequestInit → Response) (rand : ℕ → ℕ)
    (input parsed : String) (init : RequestInit) (fuel : ℕ)
    (hparse : api.parse input = some parsed)
    (h304 : (transport 0 input (firstSendInit cfg api input init)).status = 304) :
    fetchModel cfg api transport rand input init (fuel + 1) =
      .ok ⟨transport 0 input (firstSendInit cfg api input init),
        [(input, firstSendInit cfg api input init)], [], []⟩ := by
  simp only [fetchModel, hparse]
  simp only [firstSendInit, hparse] at h304 ⊢
  by_cases hp : api.protocol parsed = "file:"
  · simp [hp]
  · simp only [if_neg hp] at h304 ⊢
    exact fetchLoop_304 (transport 0 input (mergedRequestInit cfg init)) rfl h304

/-! ## Claim C1 -/

/-- C1: with retry maximum 4, the default retryable status-code set, the
default retry delay range, and responses of status 503, 503, 200 on the
three sends, none carrying a `Retry-After` header, fetch performs
exactly three sends separated by exactly two delayed retries and
returns the third response unchanged; its status is 200. -/
theorem C1_two_retries_then_success (cfg : FetchConfig) (api : URLApi)
    (transport : ℕ → String → RequestInit → Response) (rand : ℕ → ℕ)
    (input parsed : String) (init : RequestInit) (fuel : ℕ)
    (hmax : cfg.retryMaximum = 4)
    (hset : cfg.httpStatusCodesRetryable = httpStatusCodesRetryable)
    (hdelay : cfg.retryDelay = ⟨60000, 1000⟩)
    (hparse : api.parse input = some parsed)
    (hproto : api.protocol parsed ≠ "file:")
    (h₀ : (transport 0 input (mergedRequestInit cfg init)).status = 503)
    (h₀ra : headersGet (transport 0 input (mergedRequestInit cfg init)).headers
      "Retry-After" = none)
    (h₁ : (transport 1 input (mergedRequestInit cfg init)).status = 503)
    (h₁ra : headersGet (transport 1 input (mergedRequestInit cfg init)).headers
      "Retry-After" = none)
    (h₂ : (transport 2 input (mergedRequestInit cfg init)).status = 200) :
    ∃ w₁ w₂ : ℕ, fetchModel cfg api transport rand input init (fuel + 3) =
      .ok ⟨transport 2 input (mergedRequestInit cfg init),
        [(input, mergedRequestInit cfg init), (input, mergedRequestInit cfg init),
          (input, mergedRequestInit cfg init)],
        [], [w₁, w₂]⟩ ∧
      (transport 2 input (mergedRequestInit cfg init)).status = 200 := by
  obtain ⟨d₁, hd₁, -, -⟩ := resolveDelayTime_mem ⟨60000, 1000⟩ (rand 0)
    (by decide) (by decide) (by decide)
  obtain ⟨d₂, hd₂, -, -⟩ := resolveDelayTime_mem ⟨60000, 1000⟩ (rand 1)
    (by decide) (by decide) (by decide)
  refine ⟨d₁, d₂, ?_, h₂⟩
  simp only [fetchModel, hparse]
  rw [if_neg hproto]
  rw [fetchLoop_retry (transport 0 input (mergedRequestInit cfg init)) rfl
    (by rw [h₀]; decide) (by rw [h₀]; decide)
    (by simp [Response.isOk, h₀]) (by rw [hmax]; decide) (by rw [h₀, hset]; decide)
    (by rw [h₀ra]; rfl) d₁ (by rw [hdelay]; exact hd₁)]
  rw [fetchLoop_retry (transport 1 input (mergedRequestInit cfg init)) rfl
    (by rw [h₁]; decide) (by rw [h₁]; decide)
    (by simp [Response.isOk, h₁]) (by rw [hmax]; decide) (by rw [h₁, hset]; decide)
    (by rw [h₁ra]; rfl) d₂ (by rw [hdelay]; exact hd₂)]
  rw [fetchLoop_terminal (transport 2 input (mergedRequestInit cfg init)) rfl
    (by rw [h₂]; decide) (by rw [h₂]; decide)
    (Or.inl (by simp [Response.isOk, h₂]))]
  simp

/-! ## Claim C2 -/

/-- C2: under manual-redirect control (the caller asked for `"follow"`)
with redirect maximum 1 and the default (zero) redirect delay, if every
send returns status 301 with header `Location: /next`, fetch performs
exactly one redirect wait, resends exactly once to the `Location` value
resolved to an absolute URL against the input, and returns the second
301 response unmodified — no further redirect and no retry. -/
theorem C2_single_redirect_then_exhausted (cfg : FetchConfig) (api : URLApi)
    (transport : ℕ → String → RequestInit → Response) (rand : ℕ → ℕ)
    (input parsed resolved : String) (init : RequestInit) (fuel : ℕ)
    (hmax : cfg.redirectMaximum = some 1)
    (hdelay : cfg.redirectDelay = ⟨0, 0⟩)
    (hfollow : init.redirect = some "follow")
    (hparse : api.parse input = some parsed)
    (hproto : api.protocol parsed ≠ "file:")
    (hres : api.resolve "/next" input = some resolved)
    (h₀ : (transport 0 input (mergedRequestInit cfg init)).status = 301)
    (h₀loc : headersGet (transport 0 input (mergedRequestInit cfg init)).headers
      "Location" = some "/next")
    (h₁ : (transport 1 resolved (mergedRequestInit cfg init)).status = 301) :
    fetchModel cfg api transport rand input init (fuel + 2) =
      .ok ⟨transport 1 resolved (mergedRequestInit cfg init),
        [(input, mergedRequestInit cfg init), (resolved, mergedRequestInit cfg init)],
        [0], []⟩ ∧
      (transport 1 resolved (mergedRequestInit cfg init)).status = 301 := by
  have hrc : requestRedirectControl cfg init = true := by
    simp [requestRedirectControl, hfollow, hmax]
  refine ⟨?_, h₁⟩
  simp only [fetchModel, hparse]
  rw [if_neg hproto]
  rw [fetchLoop_redirect (transport 0 input (mergedRequestInit cfg init))
    rfl (by rw [h₀]; decide) hrc
    (by rw [h₀]; decide) (by rw [hmax]; decide) h₀loc hres
    0 (by rw [hdelay]; rfl) (Nat.zero_le _)]
  rw [fetchLoop_redirect_exhausted (transport 1 resolved (mergedRequestInit cfg init)) rfl
    (by rw [h₁]; decide) hrc
    (by rw [h₁]; decide) (by rw [hmax]; decide)]
  simp

/-! ## Claim C7 -/

/-- A fetch whose first response has status 200 returns it at once. -/
theorem fetchModel_first_ok {cfg : FetchConfig} {api : URLApi}
    {transport : ℕ → String → RequestInit → Response} {rand : ℕ → ℕ}
    {input parsed : String} {init : RequestInit} {fuel : ℕ}
    (hparse : api.parse input = some parsed)
    (hproto : api.protocol parsed ≠ "file:")
    (hst : (transport 0 input (mergedRequestInit cfg init)).status = 200) :
    fetchModel cfg api transport rand input init (fuel + 1) =
      .ok ⟨transport 0 input (mergedRequestInit cfg init),
        [(input, mergedRequestInit cfg init)], [], []⟩ := by
  simp only [fetchModel, hparse]
  rw [if_neg hproto]
  rw [fetchLoop_terminal (transport 0 input (mergedRequestInit cfg init)) rfl
    (by rw [hst]; decide) (by rw [hst]; decide)
    (Or.inl (by simp [Response.isOk, hst]))]
  simp

theorem parseLink_rel_next :
    parseLink "<https://x/2>; rel=\"next\"" = .ok [("https://x/2", [("rel", "next")])] := by
  decide

theorem parseLink_lone_angle :
    parseLink "<" = .error "missing end of URI delimiter after cursor" := by
  decide

theorem defaultLinkUpNextPage_rel_next (api : URLApi) (u v : String)
    (hres : api.resolve "https://x/2" u = some v) :
    defaultLinkUpNextPage api [("https://x/2", [("rel", "next")])] u = .ok (some v) := by
  have hrel : getByRel [("https://x/2", [("rel", "next")])] "next" =
      .ok [("https://x/2", [("rel", "next")])] := by decide
  rw [defaultLinkUpNextPage, hrel]
  simp only [hres]

/-- C7: with `throwOnInvalidHeaderLink = false`, a malformed `Link`
header on the successful page-2 response makes `fetchPaginate` return
exactly the two page responses — page 2 included, no page-3 request
issued, no error raised — while with `throwOnInvalidHeaderLink = true`
the same parse failure propagates to the caller as a format error. Page
1 links to page 2 through its `Link` header relation `next`, resolved
against the page-1 URL. -/
theorem C7_malformed_link_stops_or_throws (cfg : FetchConfig) (api : URLApi)
    (transport : ℕ → String → RequestInit → Response) (rand : ℕ → ℕ)
    (init : RequestInit) (u₁ u₂ : String) (fetchFuel fuel : ℕ)
    (hparse₁ : api.parse u₁ = some u₁) (hproto₁ : api.protocol u₁ ≠ "file:")
    (hparse₂ : api.parse u₂ = some u₂) (hproto₂ : api.protocol u₂ ≠ "file:")
    (hresolve : api.resolve "https://x/2" u₁ = some u₂)
    (h₁ : (transport 0 u₁ (mergedRequestInit cfg init)).status = 200)
    (h₁link : headersGet (transport 0 u₁ (mergedRequestInit cfg init)).headers "Link" =
      some "<https://x/2>; rel=\"next\"")
    (h₂ : (transport 0 u₂ (mergedRequestInit cfg init)).status = 200)
    (h₂link : headersGet (transport 0 u₂ (mergedRequestInit cfg init)).headers "Link" =
      some "<") :
    (fetchPaginateModel cfg ⟨⟨0, 0⟩, none, false⟩ api transport rand
        (defaultLinkUpNextPage api) init (fetchFuel + 1) (fuel + 3) u₁ =
      .ok ⟨[transport 0 u₁ (mergedRequestInit cfg init),
            transport 0 u₂ (mergedRequestInit cfg init)],
        [(u₁, mergedRequestInit cfg init), (u₂, mergedRequestInit cfg init)], [0]⟩) ∧
    (∃ e, fetchPaginateModel cfg ⟨⟨0, 0⟩, none, true⟩ api transport rand
        (defaultLinkUpNextPage api) init (fetchFuel + 1) (fuel + 3) u₁ = .error e) := by
  have hf₁ : fetchModel cfg api transport rand u₁ init (fetchFuel + 1) =
      .ok ⟨transport 0 u₁ (mergedRequestInit cfg init),
        [(u₁, mergedRequestInit cfg init)], [], []⟩ :=
    fetchModel_first_ok hparse₁ hproto₁ h₁
  have hf₂ : fetchModel cfg api transport rand u₂ init (fetchFuel + 1) =
      .ok ⟨transport 0 u₂ (mergedRequestInit cfg init),
        [(u₂, mergedRequestInit cfg init)], [], []⟩ :=
    fetchModel_first_ok hparse₂ hproto₂ h₂
  have hok₁ : (transport 0 u₁ (mergedRequestInit cfg init)).isOk = true := by
    simp [Response.isOk, h₁]
  have hok₂ : (transport 0 u₂ (mergedRequestInit cfg init)).isOk = true := by
    simp [Response.isOk, h₂]
  have hlu := defaultLinkUpNextPage_rel_next api u₁ u₂ hresolve
  have hd0 : ∀ x : ℕ, resolveDelayTime ⟨0, 0⟩ x = some 0 := fun _ => rfl
  constructor
  · simp only [fetchPaginateModel, hparse₁, paginateLoop, pageWithinMaximum]
    norm_num
    simp only [hf₁, hok₁, h₁link, Option.getD_some, parseLink_rel_next, hlu,
      paginateLoop, pageWithinMaximum]
    norm_num
    simp only [hf₂, hok₂, h₂link, Option.getD_some, parseLink_lone_angle,
      paginateLoop, pageWithinMaximum, hd0]
    simp
  · refine ⟨"[" ++ u₂ ++ "] " ++ "missing end of URI delimiter after cursor", ?_⟩
    simp only [fetchPaginateModel, hparse₁, paginateLoop, pageWithinMaximum]
    norm_num
    simp only [hf₁, hok₁, h₁link, Option.getD_some, parseLink_rel_next, hlu,
      paginateLoop, pageWithinMaximum]
    norm_num
    simp only [hf₂, hok₂, h₂link, Option.getD_some, parseLink_lone_angle,
      paginateLoop, pageWithinMaximum, hd0]
    simp

/-! ## Concrete instances for the witnesses -/

/-- A concrete URL interface: the one `file:` URL of the scenarios plus
absolute `https` URLs; root-relative references resolve against the
fixed host `https://h`. -/
def witnessApi : URLApi where
  parse s :=
    if s = "file:///x" then some s
    else if s.toList.take 8 = "https://".toList then some s else none
  protocol s := if s = "file:///x" then "file:" else "https:"
  resolve rel _base :=
    if rel.toList.take 8 = "https://".toList then some rel
    else some ("https://h" ++ rel)

/-- Transport answering 503, 503, then 200. -/
def witnessTransport503 : ℕ → String → RequestInit → Response := fun n _ _ =>
  if n = 2 then ⟨200, "OK", []⟩ else ⟨503, "Service Unavailable", []⟩

/-- Transport always answering 301 with `Location: /next`. -/
def witnessTransport301 : ℕ → String → RequestInit → Response := fun _ _ _ =>
  ⟨301, "Moved Permanently", [("Location", "/next")]⟩

/-- Transport always answering 304. -/
def witnessTransport304 : ℕ → String → RequestInit → Response := fun _ _ _ =>
  ⟨304, "Not Modified", []⟩

/-- Transport of the pagination scenario: page 1 links to page 2, whose
`Link` header is malformed. -/
def witnessTransportPages : ℕ → String → RequestInit → Response := fun _ url _ =>
  if url = "https://x/1" then ⟨200, "OK", [("Link", "<https://x/2>; rel=\"next\"")]⟩
  else ⟨200, "OK", [("Link", "<")]⟩

/-- A caller request with no headers, no redirect mode, no signal. -/
def witnessInit : RequestInit := ⟨[], none, false⟩

/-- A caller request asking for `redirect: "follow"`. -/
def witnessInitFollow : RequestInit := ⟨[], some "follow", false⟩

/-- The instance state of the redirect scenario: redirect maximum 1. -/
def witnessConfigRedirect : FetchConfig :=
  { defaultFetchConfig with redirectMaximum := some 1 }

/-- The instance state of the 304 scenario: 304 made retryable and a
finite redirect maximum. -/
def witnessConfig304 : FetchConfig :=
  { defaultFetchConfig with
      httpStatusCodesRetryable := [304, 503], redirectMaximum := some 5 }

/-! ## Witnesses -/

/-- Witness for C10 on the `file:` URL with the 503/200 transport and
the 304-retryable configuration. -/
theorem C10_file_protocol_bypasses_features_witness :
    witnessApi.parse "file:///x" = some "file:///x" ∧
    witnessApi.protocol "file:///x" = "file:" ∧
    fetchModel witnessConfig304 witnessApi witnessTransport503 (fun _ => 0)
        "file:///x" witnessInitFollow 5 =
      .ok ⟨witnessTransport503 0 "file:///x" witnessInitFollow,
        [("file:///x", witnessInitFollow)], [], []⟩ :=
  ⟨by decide, by decide,
    C10_file_protocol_bypasses_features witnessConfig304 witnessApi witnessTransport503
      (fun _ => 0) "file:///x" "file:///x" witnessInitFollow 5 (by decide) (by decide)⟩

/-- Witness for C6 with 304 retryable and a follow-mode caller. -/
theorem C6_304_terminates_witness :
    witnessApi.parse "https://h/a" = some "https://h/a" ∧
    (witnessTransport304 0 "https://h/a"
      (firstSendInit witnessConfig304 witnessApi "https://h/a" witnessInitFollow)).status = 304 ∧
    fetchModel witnessConfig304 witnessApi witnessTransport304 (fun _ => 0)
        "https://h/a" witnessInitFollow 1 =
      .ok ⟨witnessTransport304 0 "https://h/a"
            (firstSendInit witnessConfig304 witnessApi "https://h/a" witnessInitFollow),
        [("https://h/a",
          firstSendInit witnessConfig304 witnessApi "https://h/a" witnessInitFollow)], [], []⟩ :=
  ⟨by decide, by decide,
    C6_304_terminates witnessConfig304 witnessApi witnessTransport304 (fun _ => 0)
      "https://h/a" "https://h/a" witnessInitFollow 0 (by decide) (by decide)⟩

/-- Witness for C1 with the default configuration and the 503/503/200
transport. -/
theorem C1_two_retries_then_success_witness :
    defaultFetchConfig.retryMaximum = 4 ∧
    defaultFetchConfig.httpStatusCodesRetryable = httpStatusCodesRetryable ∧
    defaultFetchConfig.retryDelay = ⟨60000, 1000⟩ ∧
    witnessApi.parse "https://h/a" = some "https://h/a" ∧
    witnessApi.protocol "https://h/a" ≠ "file:" ∧
    (witnessTransport503 0 "https://h/a"
      (mergedRequestInit defaultFetchConfig witnessInit)).status = 503 ∧
    headersGet (witnessTransport503 0 "https://h/a"
      (mergedRequestInit defaultFetchConfig witnessInit)).headers "Retry-After" = none ∧
    (witnessTransport503 1 "https://h/a"
      (mergedRequestInit defaultFetchConfig witnessInit)).status = 503 ∧
    headersGet (witnessTransport503 1 "https://h/a"
      (mergedRequestInit defaultFetchConfig witnessInit)).headers "Retry-After" = none ∧
    (witnessTransport503 2 "https://h/a"
      (mergedRequestInit defaultFetchConfig witnessInit)).status = 200 ∧
    (∃ w₁ w₂ : ℕ, fetchModel defaultFetchConfig witnessApi witnessTransport503 (fun _ => 0)
        "https://h/a" witnessInit 3 =
      .ok ⟨witnessTransport503 2 "https://h/a" (mergedRequestInit defaultFetchConfig witnessInit),
        [("https://h/a", mergedRequestInit defaultFetchConfig witnessInit),
          ("https://h/a", mergedRequestInit defaultFetchConfig witnessInit),
          ("https://h/a", mergedRequestInit defaultFetchConfig witnessInit)],
        [], [w₁, w₂]⟩ ∧
      (witnessTransport503 2 "https://h/a"
        (mergedRequestInit defaultFetchConfig witnessInit)).status = 200) :=
  ⟨rfl, rfl, rfl, by decide, by decide, by decide, by decide, by decide, by decide, by decide,
    C1_two_retries_then_success defaultFetchConfig witnessApi witnessTransport503 (fun _ => 0)
      "https://h/a" "https://h/a" witnessInit 0 rfl rfl rfl (by decide) (by decide)
      (by decide) (by decide) (by decide) (by decide) (by decide)⟩

/-- Witness for C2 with redirect maximum 1 and the always-301 transport. -/
theorem C2_single_redirect_then_exhausted_witness :
    witnessConfigRedirect.redirectMaximum = some 1 ∧
    witnessConfigRedirect.redirectDelay = ⟨0, 0⟩ ∧
    witnessInitFollow.redirect = some "follow" ∧
    witnessApi.parse "https://h/a" = some "https://h/a" ∧
    witnessApi.protocol "https://h/a" ≠ "file:" ∧
    witnessApi.resolve "/next" "https://h/a" = some "https://h/next" ∧
    (witnessTransport301 0 "https://h/a"
      (mergedRequestInit witnessConfigRedirect witnessInitFollow)).status = 301 ∧
    headersGet (witnessTransport301 0 "https://h/a"
      (mergedRequestInit witnessConfigRedirect witnessInitFollow)).headers "Location" =
        some "/next" ∧
    (witnessTransport301 1 "https://h/next"
      (mergedRequestInit witnessConfigRedirect witnessInitFollow)).status = 301 ∧
    (fetchModel witnessConfigRedirect witnessApi witnessTransport301 (fun _ => 0)
        "https://h/a" witnessInitFollow 2 =
      .ok ⟨witnessTransport301 1 "https://h/next"
            (mergedRequestInit witnessConfigRedirect witnessInitFollow),
        [("https://h/a", mergedRequestInit witnessConfigRedirect witnessInitFollow),
          ("https://h/next", mergedRequestInit witnessConfigRedirect witnessInitFollow)],
        [0], []⟩ ∧
      (witnessTransport301 1 "https://h/next"
        (mergedRequestInit witnessConfigRedirect witnessInitFollow)).status = 301) :=
  ⟨rfl, rfl, rfl, by decide, by decide, by decide, by decide, by decide, by decide,
    C2_single_redirect_then_exhausted witnessConfigRedirect witnessApi witnessTransport301
      (fun _ => 0) "https://h/a" "https://h/a" "https://h/next" witnessInitFollow 0
      rfl rfl rfl (by decide) (by decide) (by decide) (by decide) (by decide) (by decide)⟩

/-- Witness for C7 on the two-page scenario. -/
theorem C7_malformed_link_stops_or_throws_witness :
    witnessApi.parse "https://x/1" = some "https://x/1" ∧
    witnessApi.protocol "https://x/1" ≠ "file:" ∧
    witnessApi.parse "https://x/2" = some "https://x/2" ∧
    witnessApi.protocol "https://x/2" ≠ "file:" ∧
    witnessApi.resolve "https://x/2" "https://x/1" = some "https://x/2" ∧
    (witnessTransportPages 0 "https://x/1"
      (mergedRequestInit defaultFetchConfig witnessInit)).status = 200 ∧
    headersGet (witnessTransportPages 0 "https://x/1"
      (mergedRequestInit defaultFetchConfig witnessInit)).headers "Link" =
        some "<https://x/2>; rel=\"next\"" ∧
    (witnessTransportPages 0 "https://x/2"
      (mergedRequestInit defaultFetchConfig witnessInit)).status = 200 ∧
    headersGet (witnessTransportPages 0 "https://x/2"
      (mergedRequestInit defaultFetchConfig witnessInit)).headers "Link" = some "<" ∧
    ((fetchPaginateModel defaultFetchConfig ⟨⟨0, 0⟩, none, false⟩ witnessApi
        witnessTransportPages (fun _ => 0) (defaultLinkUpNextPage witnessApi) witnessInit 1 3
        "https://x/1" =
      .ok ⟨[witnessTransportPages 0 "https://x/1" (mergedRequestInit defaultFetchConfig witnessInit),
            witnessTransportPages 0 "https://x/2" (mergedRequestInit defaultFetchConfig witnessInit)],
        [("https://x/1", mergedRequestInit defaultFetchConfig witnessInit),
          ("https://x/2", mergedRequestInit defaultFetchConfig witnessInit)], [0]⟩) ∧
      (∃ e, fetchPaginateModel defaultFetchConfig ⟨⟨0, 0⟩, none, true⟩ witnessApi
        witnessTransportPages (fun _ => 0) (defaultLinkUpNextPage witnessApi) witnessInit 1 3
        "https://x/1" = .error e)) :=
  ⟨by decide, by decide, by decide, by decide, by decide, by decide, by decide, by decide,
    by decide,
    C7_malformed_link_stops_or_throws defaultFetchConfig witnessApi witnessTransportPages
      (fun _ => 0) witnessInit "https://x/1" "https://x/2" 0 0 (by decide) (by decide)
      (by decide) (by decide) (by decide) (by decide) (by decide) (by decide) (by decide)⟩

end ExFetchModel
